import Mathlib

/-!
Verification of the transformation engine of target-netsuite
(src/target_netsuite/__init__.py) against its specification.

The embedding follows the source closely:

* Python dictionaries whose keys may be absent become structures with
  Option fields; a missing key is the value none.
* The truthiness tests of the source (for example
  ref_data.get("Accounts") and row.get("Account Number")) become
  listTruthy / Option.isSome: a reference collection that is absent or
  empty is falsy, and a row cell that is absent or falsy is modelled as
  none.
* The loop-carried variable journal_entry_line of build_lines is a
  Python object reference: mutating it after it has been appended to
  line_items also changes the stored element, and appending it twice
  stores the same object twice.  The LoopState below models this
  exactly: pending holds the current object together with the number of
  times it has been appended, and the object is materialised
  (flushPending) only once it can no longer be mutated.
* Referencing journal_entry_line or currency_ref before assignment is a
  Python NameError; a bracket access row["Amount"] on a missing column
  is a KeyError; .iloc[0] on an empty frame is an IndexError.  These are
  the PyErr values, and build_lines returns Except PyErr JournalEntry.
* pandas df.groupby(key) with its default sort=True emits groups in
  ascending key order while preserving the original row order inside
  each group; rounding round(x, 2) is modelled on exact rationals with
  the half-to-even tie rule Python uses.
-/

namespace TargetNetsuite

/-- A NetSuite record reference dictionary, the shape both of a
subsidiary built from an explicit row value and of a recordRef read from
an account subsidiary list. -/
structure RecordRef where
  name : Option String
  externalId : Option String
  internalId : Option String
  type : Option String
deriving DecidableEq, Repr

/-- The three-field reference triple the engine emits for accounts,
classes, departments, locations and currencies. -/
structure Ref3 where
  name : Option String
  externalId : Option String
  internalId : Option String
deriving DecidableEq, Repr

/-- One Accounts record: the fields of acct_data that build_lines
reads. -/
structure Account where
  acctNumber : String
  acctName : Option String
  externalId : Option String
  internalId : Option String
  subsidiaryList : List RecordRef
deriving DecidableEq, Repr

/-- One Classifications, Departments or Locations record. -/
structure NamedRecord where
  name : String
  externalId : Option String
  internalId : Option String
deriving DecidableEq, Repr

/-- One Currencies record. -/
structure CurrencyRec where
  symbol : String
  externalId : Option String
  internalId : Option String
deriving DecidableEq, Repr

/-- The reference_data dictionary of get_reference_data: each of the
five collections is absent (none) when its fetch failed. -/
structure RefData where
  accounts : Option (List Account)
  classifications : Option (List NamedRecord)
  departments : Option (List NamedRecord)
  locations : Option (List NamedRecord)
  currencies : Option (List CurrencyRec)
deriving DecidableEq, Repr

/-- Python truthiness of ref_data.get(key): false when the key is absent
and also when the stored list is empty. -/
def listTruthy {α : Type} : Option (List α) → Bool
  | none => false
  | some l => !l.isEmpty

/-- One input CSV row, holding the cells build_lines reads.  An Option
field is none when the cell is absent or falsy for row.get; amount is
none when the Amount column is missing from the CSV, so that the bracket
access row["Amount"] is a KeyError. -/
structure Row where
  journalEntryId : String
  transactionDate : String
  description : String
  postingType : String
  accountNumber : Option String
  Subsidiary : Option String
  Class : Option String
  Department : Option String
  Location : Option String
  Currency : Option String
  amount : Option Rat
deriving DecidableEq, Repr

/-- Result of pandas to_datetime on a date string.  Parsing itself is
outside the transformation engine, so the timestamp is modelled as the
wrapped input string. -/
structure PDTimestamp where
  raw : String
deriving DecidableEq, Repr

/-- pandas.to_datetime as used on the first Transaction Date cell. -/
def pd_to_datetime (s : String) : PDTimestamp := ⟨s⟩

/-- One journal entry line dictionary.  The account key is always
present when the dictionary is created; every other key is added later
and so is an Option. -/
structure JournalEntryLine where
  account : Ref3
  «class» : Option Ref3
  department : Option Ref3
  location : Option Ref3
  credit : Option Rat
  debit : Option Rat
  memo : Option String
deriving DecidableEq, Repr

/-- The assembled journal entry dictionary after update(subsidiaries). -/
structure JournalEntry where
  createdDate : Option PDTimestamp
  tranDate : Option PDTimestamp
  externalId : String
  lineList : List JournalEntryLine
  currency : Option Ref3
  subsidiary : Option RecordRef
  toSubsidiary : Option RecordRef
deriving DecidableEq, Repr

/-- The Python exceptions build_lines can raise. -/
inductive PyErr
  | nameError
  | keyError
  | indexError
deriving DecidableEq, Repr

/-- How a run of load_journal_entries fails: the sys.exit(1) on missing
required columns, or an exception escaping a build_lines call. -/
inductive LoadError
  | schemaExit
  | assemblyError (e : PyErr)
deriving DecidableEq, Repr

/-- A per-group sub-DataFrame: the rows of the group in original input
order plus the column-membership facts that build_lines consults. -/
structure Frame where
  rows : List Row
  hasDescription : Bool
  hasTransactionDate : Bool
deriving DecidableEq, Repr

/-- The whole input CSV. -/
structure DataFrame where
  cols : List String
  rows : List Row
deriving DecidableEq, Repr

/-- Round-half-to-even on an exact rational, the tie rule of Python
round. -/
def roundHalfEven (q : Rat) : Int :=
  let f : Int := q.floor
  let r : Rat := q - (f : Rat)
  if r < (1 : Rat) / 2 then f
  else if (1 : Rat) / 2 < r then f + 1
  else if f % 2 = 0 then f else f + 1

/-- round(x, 2) of the source. -/
def pyRound2 (q : Rat) : Rat := ((roundHalfEven (q * 100) : Int) : Rat) / 100

/-- The state carried through the row loop of build_lines: the line
dictionaries that can no longer be mutated, the current
journal_entry_line object with the number of times it has been appended
to line_items (none while the variable is still unbound), and the
subsidiaries dictionary. -/
structure LoopState where
  finalized : List JournalEntryLine
  pending : Option (JournalEntryLine × Nat)
  subsidiary : Option RecordRef
  toSubsidiary : Option RecordRef
deriving DecidableEq, Repr

/-- Materialise the current object: it occupies one slot in line_items
for every append, and all slots show its final value. -/
def flushPending : Option (JournalEntryLine × Nat) → List JournalEntryLine
  | none => []
  | some (l, k) => List.replicate k l

/-- A mutation of journal_entry_line: a NameError when the variable is
unbound, otherwise an update of the current object in place. -/
def mutatePending (st : LoopState) (f : JournalEntryLine → JournalEntryLine) :
    Except PyErr LoopState :=
  match st.pending with
  | none => .error .nameError
  | some (l, k) => .ok { st with pending := some (f l, k) }

/-- A fresh journal_entry_line dictionary holding only its account. -/
def freshLine (ref_acct : Ref3) : JournalEntryLine :=
  { account := ref_acct, «class» := none, department := none, location := none,
    credit := none, debit := none, memo := none }

/-- Lines 122 to 128: the state after an account resolves: the previous
current object is finalised and a fresh journal_entry_line dictionary,
holding only the account reference triple, becomes current. -/
def newLineState (st : LoopState) (a : Account) : LoopState :=
  { st with
    finalized := st.finalized ++ flushPending st.pending,
    pending := some (freshLine ⟨a.acctName, a.externalId, a.internalId⟩, 0) }

/-- Lines 130 to 135: the subsidiary derived for a resolved-account row:
a bare dictionary around the explicit row value when one is present,
otherwise the first entry of the account subsidiary list. -/
def rowSubsidiary (row : Row) (a : Account) : Option RecordRef :=
  match row.Subsidiary with
  | some s => some ⟨none, none, some s, none⟩
  | none =>
    match a.subsidiaryList with
    | [] => none
    | r :: _ => some r

/-- Lines 114 to 140 of the source: the account block.  The outcome none
is the continue statement that skips the row when the filtered account
list is empty; when the gating condition is falsy the block is skipped
but the row is NOT skipped, and the previous journal_entry_line object
stays current. -/
def accountStep (ref_data : RefData) (st : LoopState) (row : Row) :
    Option LoopState :=
  match listTruthy ref_data.accounts && row.accountNumber.isSome,
        row.accountNumber with
  | true, some acct_num =>
    match (ref_data.accounts.getD []).filter (fun a => a.acctNumber == acct_num) with
    | [] => none
    | a :: _ =>
      match rowSubsidiary row a with
      | none => some (newLineState st a)
      | some sub =>
        if row.postingType = "Credit" then
          some { newLineState st a with toSubsidiary := some sub }
        else if row.postingType = "Debit" then
          some { newLineState st a with subsidiary := some sub }
        else some (newLineState st a)
  | _, _ => some st

/-- Scanner for Python str.split with a non-empty separator: emit the
accumulated segment whenever the separator is the prefix of the
remaining input, consuming the rest of the separator through the skip
counter.  Recursion is structural on the scanned list. -/
def pySplitAux (sep : List Char) : List Char → Nat → List Char → List (List Char)
  | [], _, acc => [acc.reverse]
  | _ :: rest, skip + 1, acc => pySplitAux sep rest skip acc
  | c :: rest, 0, acc =>
    if sep.isPrefixOf (c :: rest) then
      acc.reverse :: pySplitAux sep rest (sep.length - 1) []
    else
      pySplitAux sep rest 0 (c :: acc)

/-- Python str.split(sep) on strings, used on display names with the
separator " - ". -/
def pySplit (sep s : String) : List String :=
  (pySplitAux sep.data s.data 0 []).map String.mk

/-- First record whose display name split on " - " contains the value:
the filter of the Classifications and Departments blocks. -/
def resolveByToken (v : String) (recs : List NamedRecord) : Option NamedRecord :=
  (recs.filter (fun d => (pySplit " - " d.name).contains v)).head?

/-- First record whose display name equals the value: the filter of the
Locations block. -/
def resolveByName (v : String) (recs : List NamedRecord) : Option NamedRecord :=
  (recs.filter (fun l => l.name == v)).head?

/-- Lines 142 to 151: the Class block. -/
def classStep (ref_data : RefData) (row : Row) (st : LoopState) :
    Except PyErr LoopState :=
  match listTruthy ref_data.classifications && row.Class.isSome, row.Class with
  | true, some v =>
    match resolveByToken v (ref_data.classifications.getD []) with
    | none => .ok st
    | some d =>
      mutatePending st (fun l =>
        { l with «class» := some ⟨some d.name, d.externalId, d.internalId⟩ })
  | _, _ => .ok st

/-- Lines 153 to 162: the Department block. -/
def deptStep (ref_data : RefData) (row : Row) (st : LoopState) :
    Except PyErr LoopState :=
  match listTruthy ref_data.departments && row.Department.isSome, row.Department with
  | true, some v =>
    match resolveByToken v (ref_data.departments.getD []) with
    | none => .ok st
    | some d =>
      mutatePending st (fun l =>
        { l with department := some ⟨some d.name, d.externalId, d.internalId⟩ })
  | _, _ => .ok st

/-- Lines 164 to 173: the Location block. -/
def locStep (ref_data : RefData) (row : Row) (st : LoopState) :
    Except PyErr LoopState :=
  match listTruthy ref_data.locations && row.Location.isSome, row.Location with
  | true, some v =>
    match resolveByName v (ref_data.locations.getD []) with
    | none => .ok st
    | some d =>
      mutatePending st (fun l =>
        { l with location := some ⟨some d.name, d.externalId, d.internalId⟩ })
  | _, _ => .ok st

/-- Lines 175 to 179: the Posting Type block.  The right hand side
round(row["Amount"], 2) is evaluated before the subscript assignment, so
a missing Amount column raises KeyError even when journal_entry_line is
unbound. -/
def amountStep (row : Row) (st : LoopState) : Except PyErr LoopState :=
  if row.postingType = "Credit" then
    match row.amount with
    | none => .error .keyError
    | some amt => mutatePending st (fun l => { l with credit := some (pyRound2 amt) })
  else if row.postingType = "Debit" then
    match row.amount with
    | none => .error .keyError
    | some amt => mutatePending st (fun l => { l with debit := some (pyRound2 amt) })
  else .ok st

/-- Lines 181 to 183: the memo block, writing the Description of the
first row of the group. -/
def memoStep (x : Frame) (st : LoopState) : Except PyErr LoopState :=
  match x.hasDescription, x.rows.head? with
  | true, none => .error .indexError
  | true, some r0 => mutatePending st (fun l => { l with memo := some r0.description })
  | false, _ => .ok st

/-- Line 185: line_items.append(journal_entry_line), one more slot for
the current object; a NameError when the variable is unbound. -/
def appendStep (st : LoopState) : Except PyErr LoopState :=
  match st.pending with
  | none => .error .nameError
  | some (l, k) => .ok { st with pending := some (l, k + 1) }

/-- One iteration of the row loop of build_lines. -/
def processRow (x : Frame) (ref_data : RefData) (st : LoopState) (row : Row) :
    Except PyErr LoopState :=
  match accountStep ref_data st row with
  | none => .ok st
  | some st1 =>
    match classStep ref_data row st1 with
    | .error e => .error e
    | .ok st2 =>
      match deptStep ref_data row st2 with
      | .error e => .error e
      | .ok st3 =>
        match locStep ref_data row st3 with
        | .error e => .error e
        | .ok st4 =>
          match amountStep row st4 with
          | .error e => .error e
          | .ok st5 =>
            match memoStep x st5 with
            | .error e => .error e
            | .ok st6 => appendStep st6

/-- The state before the first iteration. -/
def initState : LoopState :=
  { finalized := [], pending := none, subsidiary := none, toSubsidiary := none }

/-- The whole row loop of build_lines. -/
def runRows (x : Frame) (ref_data : RefData) : Except PyErr LoopState :=
  x.rows.foldlM (processRow x ref_data) initState

/-- Lines 187 to 200: the currency block, which reads the loop variable
row after the loop, hence the Currency cell of the LAST row of the
group.  The outer none means currency_ref was left unbound (the branch
where the symbol has no match assigns nothing), which surfaces as a
NameError only where the variable is used. -/
def buildCurrency (ref_data : RefData) (rows : List Row) :
    Except PyErr (Option (Option Ref3)) :=
  match listTruthy ref_data.currencies, rows.getLast? with
  | true, none => .error .nameError
  | true, some row =>
    match row.Currency with
    | none => .ok (some none)
    | some sym =>
      match (ref_data.currencies.getD []).filter (fun c => c.symbol == sym) with
      | [] => .ok none
      | c :: _ =>
        .ok (some (some
          { name := some c.symbol, externalId := c.externalId, internalId := c.internalId }))
  | false, _ => .ok (some none)

/-- Lines 202 to 205: drop toSubsidiary when both keys are present and
the two reference dictionaries are equal. -/
def collapseSubsidiaries (sub toSub : Option RecordRef) :
    Option RecordRef × Option RecordRef :=
  match sub, toSub with
  | some s, some t => if s = t then (some s, none) else (some s, some t)
  | s, t => (s, t)

/-- Lines 207 to 210: created_date from the Transaction Date of the
first row when the column exists. -/
def createdDateOf (x : Frame) : Except PyErr (Option PDTimestamp) :=
  match x.hasTransactionDate, x.rows.head? with
  | true, none => .error .indexError
  | true, some r0 => .ok (some (pd_to_datetime r0.transactionDate))
  | false, _ => .ok none

/-- The externalId value x["Journal Entry Id"].iloc[0] of line 216. -/
def externalIdOf (x : Frame) : Except PyErr String :=
  match x.rows.head? with
  | none => .error .indexError
  | some r0 => .ok r0.journalEntryId

/-- build_lines of the source: the row loop, then currency resolution,
subsidiary collapse, dates, and the journal entry dictionary updated
with the subsidiaries. -/
def build_lines (x : Frame) (ref_data : RefData) : Except PyErr JournalEntry :=
  match runRows x ref_data with
  | .error e => .error e
  | .ok st =>
    match buildCurrency ref_data x.rows with
    | .error e => .error e
    | .ok currencyBinding =>
      match createdDateOf x with
      | .error e => .error e
      | .ok created_date =>
        match externalIdOf x with
        | .error e => .error e
        | .ok extId =>
          match currencyBinding with
          | none => .error .nameError
          | some currency_ref =>
            .ok { createdDate := created_date, tranDate := created_date,
                  externalId := extId,
                  lineList := st.finalized ++ flushPending st.pending,
                  currency := currency_ref,
                  subsidiary := (collapseSubsidiaries st.subsidiary st.toSubsidiary).1,
                  toSubsidiary := (collapseSubsidiaries st.subsidiary st.toSubsidiary).2 }

/-- Lexicographic less-or-equal on code point sequences, the string
order by which pandas sorts group keys. -/
def charListLe : List Char → List Char → Bool
  | [], _ => true
  | _ :: _, [] => false
  | a :: as, b :: bs =>
    if a.toNat < b.toNat then true
    else if b.toNat < a.toNat then false
    else charListLe as bs

/-- Lexicographic less-or-equal on strings. -/
def strLe (a b : String) : Bool := charListLe a.data b.data

/-- Insert a key into an already sorted key list. -/
def insSorted (s : String) : List String → List String
  | [] => [s]
  | t :: rest => if strLe s t then s :: t :: rest else t :: insSorted s rest

/-- Sort group keys ascending, the order pandas groupby(sort=True) emits
groups in. -/
def sortKeys : List String → List String
  | [] => []
  | k :: rest => insSorted k (sortKeys rest)

/-- Distinct elements in first-encounter order, skipping those already
seen. -/
def feAux (seen : List String) : List String → List String
  | [] => []
  | k :: rest => if k ∈ seen then feAux seen rest else k :: feAux (k :: seen) rest

/-- The distinct Journal Entry Id values in the order they are first
encountered in the input (the emission order the specification asserts;
pandas actually sorts these keys). -/
def firstEncounterKeys (rows : List Row) : List String :=
  feAux [] (rows.map (fun r => r.journalEntryId))

/-- df.groupby(["Journal Entry Id"]) of line 253: one group per distinct
key holding the input rows with that key in original order, the groups
emitted in ascending key order. -/
def groupbyJE (rows : List Row) : List (String × List Row) :=
  (sortKeys (firstEncounterKeys rows)).map
    (fun k => (k, rows.filter (fun r => r.journalEntryId == k)))

/-- REQUIRED_COLS of lines 234 to 243. -/
def REQUIRED_COLS : List String :=
  ["Transaction Date", "Journal Entry Id", "Customer Name", "Class",
   "Account Number", "Account Name", "Posting Type", "Description"]

/-- The grouping and per-group assembly of line 253, reached only after
column validation. -/
def processGroups (df : DataFrame) (reference_data : RefData) :
    Except LoadError (List JournalEntry) :=
  (((groupbyJE df.rows).mapM (fun kg =>
      build_lines
        { rows := kg.2,
          hasDescription := df.cols.contains "Description",
          hasTransactionDate := df.cols.contains "Transaction Date" }
        reference_data)).mapError LoadError.assemblyError)

/-- load_journal_entries of the source: the required-column check, then
grouping and assembly. -/
def load_journal_entries (df : DataFrame) (reference_data : RefData) :
    Except LoadError (List JournalEntry) :=
  if REQUIRED_COLS.all (fun c => df.cols.contains c) then
    processGroups df reference_data
  else
    .error .schemaExit

/-- Reference data with the Accounts collection absent, as after a
failed Accounts fetch. -/
def c1Ref : RefData :=
  { accounts := none, classifications := none, departments := none,
    locations := none, currencies := none }

/-- A single well-formed row whose account number would simply not
resolve because the Accounts collection is absent. -/
def c1Row : Row :=
  { journalEntryId := "JE1", transactionDate := "2021-01-01", description := "memo",
    postingType := "Credit", accountNumber := some "100", Subsidiary := none,
    Class := none, Department := none, Location := none, Currency := none,
    amount := some 150 }

def c1Frame : Frame :=
  { rows := [c1Row], hasDescription := true, hasTransactionDate := true }

def c2Acct : Account :=
  { acctNumber := "100", acctName := some "Cash", externalId := none,
    internalId := some "1", subsidiaryList := [] }

def c2Ref : RefData :=
  { accounts := some [c2Acct], classifications := none, departments := none,
    locations := none, currencies := none }

/-- A debit row whose account resolves. -/
def c2Row1 : Row :=
  { journalEntryId := "JE1", transactionDate := "2021-01-01", description := "memo",
    postingType := "Debit", accountNumber := some "100", Subsidiary := none,
    Class := none, Department := none, Location := none, Currency := none,
    amount := some 10 }

/-- A credit row with a falsy Account Number cell (for example the
number 0), so the account block is skipped without skipping the row. -/
def c2Row2 : Row :=
  { c2Row1 with postingType := "Credit", accountNumber := none, amount := some 5 }

def c2Frame : Frame :=
  { rows := [c2Row1, c2Row2], hasDescription := true, hasTransactionDate := true }

def c3Acct : Account :=
  { acctNumber := "100", acctName := some "Cash", externalId := none,
    internalId := some "1", subsidiaryList := [] }

def c3Cur : CurrencyRec :=
  { symbol := "USD", externalId := none, internalId := some "9" }

/-- Currencies fetched, but holding no record for the symbol the row
carries. -/
def c3Ref : RefData :=
  { accounts := some [c3Acct], classifications := none, departments := none,
    locations := none, currencies := some [c3Cur] }

def c3Row : Row :=
  { journalEntryId := "JE1", transactionDate := "2021-01-01", description := "memo",
    postingType := "Debit", accountNumber := some "100", Subsidiary := none,
    Class := none, Department := none, Location := none, Currency := some "EUR",
    amount := some 1 }

def c3Frame : Frame :=
  { rows := [c3Row], hasDescription := true, hasTransactionDate := true }

def c4RowB : Row :=
  { journalEntryId := "B", transactionDate := "", description := "",
    postingType := "", accountNumber := none, Subsidiary := none,
    Class := none, Department := none, Location := none, Currency := none,
    amount := none }

def c4RowA : Row := { c4RowB with journalEntryId := "A" }

/-- An account-level default subsidiary record: internal id 5 but with a
name and a type, unlike the bare dictionary built from an explicit row
value. -/
def c5SubRef : RecordRef :=
  { name := some "Sub Five", externalId := none, internalId := some "5",
    type := some "subsidiary" }

def c5AcctA : Account :=
  { acctNumber := "100", acctName := some "Cash", externalId := none,
    internalId := some "1", subsidiaryList := [] }

def c5AcctB : Account :=
  { acctNumber := "200", acctName := some "Sales", externalId := none,
    internalId := some "2", subsidiaryList := [c5SubRef] }

def c5Ref : RefData :=
  { accounts := some [c5AcctA, c5AcctB], classifications := none, departments := none,
    locations := none, currencies := none }

/-- Debit row carrying the explicit Subsidiary value 5. -/
def c5Row1 : Row :=
  { journalEntryId := "JE1", transactionDate := "2021-01-01", description := "memo",
    postingType := "Debit", accountNumber := some "100", Subsidiary := some "5",
    Class := none, Department := none, Location := none, Currency := none,
    amount := some 7 }

/-- Credit row whose subsidiary comes from the account default list with
the same internal id 5. -/
def c5Row2 : Row :=
  { c5Row1 with postingType := "Credit", accountNumber := some "200", Subsidiary := none }

def c5Frame : Frame :=
  { rows := [c5Row1, c5Row2], hasDescription := true, hasTransactionDate := true }

def c5wAcct : Account :=
  { acctNumber := "100", acctName := some "Cash", externalId := none,
    internalId := some "1", subsidiaryList := [] }

def c5wRef : RefData :=
  { accounts := some [c5wAcct], classifications := none, departments := none,
    locations := none, currencies := none }

def c5wRow1 : Row :=
  { journalEntryId := "JE9", transactionDate := "2021-01-01", description := "m",
    postingType := "Credit", accountNumber := some "100", Subsidiary := some "5",
    Class := none, Department := none, Location := none, Currency := none,
    amount := some 7 }

def c5wRow2 : Row := { c5wRow1 with postingType := "Debit" }

def c5wFrame : Frame :=
  { rows := [c5wRow1, c5wRow2], hasDescription := true, hasTransactionDate := true }

/-- The bare subsidiary dictionary built from the explicit row value 5. -/
def c5wSub : RecordRef :=
  { name := none, externalId := none, internalId := some "5", type := none }

def c5wAcctRef : Ref3 :=
  { name := some "Cash", externalId := none, internalId := some "1" }

/-- The loop state after both rows of c5wFrame. -/
def c5wState : LoopState :=
  { finalized :=
      [{ account := c5wAcctRef, «class» := none, department := none, location := none,
         credit := some (pyRound2 7), debit := none, memo := some "m" }],
    pending := some
      ({ account := c5wAcctRef, «class» := none, department := none, location := none,
         credit := none, debit := some (pyRound2 7), memo := some "m" }, 1),
    subsidiary := some c5wSub, toSubsidiary := some c5wSub }

def c6Ref : RefData :=
  { accounts := none, classifications := none, departments := none,
    locations := none, currencies := none }

/-- The schema error scenario of the specification: every required
column except Description. -/
def c6BadDf : DataFrame :=
  { cols := ["Transaction Date", "Journal Entry Id", "Customer Name", "Class",
             "Account Number", "Account Name", "Posting Type"],
    rows := [] }

def c8Acct : Account :=
  { acctNumber := "100", acctName := some "Cash", externalId := none,
    internalId := some "1", subsidiaryList := [] }

def c8Ref : RefData :=
  { accounts := some [c8Acct], classifications := none, departments := none,
    locations := none, currencies := none }

def c8Row1 : Row :=
  { journalEntryId := "JE8", transactionDate := "2021-02-02", description := "first",
    postingType := "Debit", accountNumber := some "100", Subsidiary := none,
    Class := none, Department := none, Location := none, Currency := none,
    amount := some 3 }

/-- Second row of the group, with its own different Description cell. -/
def c8Row2 : Row :=
  { c8Row1 with description := "second", postingType := "Credit" }

def c8Frame : Frame :=
  { rows := [c8Row1, c8Row2], hasDescription := true, hasTransactionDate := true }

def c8AcctRef : Ref3 :=
  { name := some "Cash", externalId := none, internalId := some "1" }

/-- The line produced by the second row: its memo is the FIRST row's
Description. -/
def c8Line2 : JournalEntryLine :=
  { account := c8AcctRef, «class» := none, department := none, location := none,
    credit := some (pyRound2 3), debit := none, memo := some "first" }

def c8Entry : JournalEntry :=
  { createdDate := some (pd_to_datetime "2021-02-02"),
    tranDate := some (pd_to_datetime "2021-02-02"),
    externalId := "JE8",
    lineList :=
      [{ account := c8AcctRef, «class» := none, department := none, location := none,
         credit := none, debit := some (pyRound2 3), memo := some "first" },
       c8Line2],
    currency := none, subsidiary := none, toSubsidiary := none }

def c9Acct : Account :=
  { acctNumber := "100", acctName := some "Cash", externalId := none,
    internalId := some "1", subsidiaryList := [] }

def c9Ref : RefData :=
  { accounts := some [c9Acct], classifications := none, departments := none,
    locations := none, currencies := none }

def c9Row : Row :=
  { journalEntryId := "JE7", transactionDate := "2020-05-05", description := "d",
    postingType := "Debit", accountNumber := some "100", Subsidiary := none,
    Class := none, Department := none, Location := none, Currency := none,
    amount := some 2 }

def c9Frame : Frame :=
  { rows := [c9Row], hasDescription := true, hasTransactionDate := true }

def c9Entry : JournalEntry :=
  { createdDate := some (pd_to_datetime "2020-05-05"),
    tranDate := some (pd_to_datetime "2020-05-05"),
    externalId := "JE7",
    lineList :=
      [{ account := { name := some "Cash", externalId := none, internalId := some "1" },
         «class» := none, department := none, location := none,
         credit := none, debit := some (pyRound2 2), memo := some "d" }],
    currency := none, subsidiary := none, toSubsidiary := none }

def c10Acct : Account :=
  { acctNumber := "100", acctName := some "Cash", externalId := none,
    internalId := some "1", subsidiaryList := [] }

def c10Ref : RefData :=
  { accounts := some [c10Acct], classifications := none, departments := none,
    locations := none, currencies := none }

/-- A row from a CSV that has every required column but no Amount
column: the Amount bracket access is a KeyError. -/
def c10Row : Row :=
  { journalEntryId := "JE1", transactionDate := "2021-01-01", description := "d",
    postingType := "Credit", accountNumber := some "100", Subsidiary := none,
    Class := none, Department := none, Location := none, Currency := none,
    amount := none }

def c10Df : DataFrame := { cols := REQUIRED_COLS, rows := [c10Row] }

/-- The journal entry assembled from c5wFrame: the same-record
subsidiaries collapse, so toSubsidiary is gone. -/
def c5wEntry : JournalEntry :=
  { createdDate := some (pd_to_datetime "2021-01-01"),
    tranDate := some (pd_to_datetime "2021-01-01"),
    externalId := "JE9",
    lineList :=
      [{ account := c5wAcctRef, «class» := none, department := none, location := none,
         credit := some (pyRound2 7), debit := none, memo := some "m" },
       { account := c5wAcctRef, «class» := none, department := none, location := none,
         credit := none, debit := some (pyRound2 7), memo := some "m" }],
    currency := none, subsidiary := some c5wSub, toSubsidiary := none }

/-- The memo invariant of the row loop: every already-materialised line,
and the current object once it has been appended at least once, carries
the first row's Description as its memo. -/
def memoInv (d : String) (st : LoopState) : Prop :=
  (∀ l ∈ st.finalized, l.memo = some d)
  ∧ (∀ l k, st.pending = some (l, k) → 0 < k → l.memo = some d)

theorem charListLe_total (as : List Char) : ∀ bs,
    charListLe as bs = true ∨ charListLe bs as = true := by
  induction as with
  | nil =>
    intro bs
    exact Or.inl rfl
  | cons a as ih =>
    intro bs
    cases bs with
    | nil => exact Or.inr rfl
    | cons b bs =>
      by_cases h1 : a.toNat < b.toNat
      · exact Or.inl (by simp [charListLe, h1])
      · by_cases h2 : b.toNat < a.toNat
        · exact Or.inr (by simp [charListLe, h2])
        · rcases ih bs with h | h
          · exact Or.inl (by simp [charListLe, h1, h2, h])
          · exact Or.inr (by simp [charListLe, h1, h2, h])

theorem charListLe_trans (as : List Char) : ∀ bs cs,
    charListLe as bs = true → charListLe bs cs = true → charListLe as cs = true := by
  induction as with
  | nil =>
    intro bs cs _ _
    rfl
  | cons a as ih =>
    intro bs cs hab hbc
    cases bs with
    | nil => simp [charListLe] at hab
    | cons b bs =>
      cases cs with
      | nil => simp [charListLe] at hbc
      | cons c cs =>
        by_cases h1 : a.toNat < b.toNat
        · by_cases h2 : b.toNat < c.toNat
          · have hac : a.toNat < c.toNat := Nat.lt_trans h1 h2
            simp [charListLe, hac]
          · by_cases h3 : c.toNat < b.toNat
            · simp [charListLe, h2, h3] at hbc
            · have hbceq : b.toNat = c.toNat :=
                Nat.le_antisymm (Nat.not_lt.mp h3) (Nat.not_lt.mp h2)
              have hac : a.toNat < c.toNat := hbceq ▸ h1
              simp [charListLe, hac]
        · by_cases h4 : b.toNat < a.toNat
          · simp [charListLe, h1, h4] at hab
          · have habeq : a.toNat = b.toNat :=
              Nat.le_antisymm (Nat.not_lt.mp h4) (Nat.not_lt.mp h1)
            have hab2 : charListLe as bs = true := by
              simpa [charListLe, h1, h4] using hab
            by_cases h2 : b.toNat < c.toNat
            · have hac : a.toNat < c.toNat := habeq ▸ h2
              simp [charListLe, hac]
            · by_cases h3 : c.toNat < b.toNat
              · simp [charListLe, h2, h3] at hbc
              · have hbc2 : charListLe bs cs = true := by
                  simpa [charListLe, h2, h3] using hbc
                have hbceq : b.toNat = c.toNat :=
                  Nat.le_antisymm (Nat.not_lt.mp h3) (Nat.not_lt.mp h2)
                have hac : a.toNat = c.toNat := habeq.trans hbceq
                have h5 : ¬ a.toNat < c.toNat := by omega
                have h6 : ¬ c.toNat < a.toNat := by omega
                simp [charListLe, h5, h6, ih bs cs hab2 hbc2]

theorem strLe_total (a b : String) : strLe a b = true ∨ strLe b a = true :=
  charListLe_total a.data b.data

theorem strLe_trans (a b c : String) (h1 : strLe a b = true)
    (h2 : strLe b c = true) : strLe a c = true :=
  charListLe_trans a.data b.data c.data h1 h2

theorem insSorted_perm (s : String) (l : List String) :
    (insSorted s l).Perm (s :: l) := by
  induction l with
  | nil => simp [insSorted]
  | cons t rest ih =>
    by_cases h : strLe s t = true
    · simp [insSorted, h]
    · simp only [insSorted, if_neg h]
      exact (ih.cons t).trans (List.Perm.swap s t rest)

theorem sortKeys_perm (l : List String) : (sortKeys l).Perm l := by
  induction l with
  | nil => simp [sortKeys]
  | cons k rest ih => exact (insSorted_perm k (sortKeys rest)).trans (ih.cons k)

theorem insSorted_pairwise (s : String) (l : List String)
    (h : l.Pairwise (fun a b => strLe a b = true)) :
    (insSorted s l).Pairwise (fun a b => strLe a b = true) := by
  induction l with
  | nil => simp [insSorted]
  | cons t rest ih =>
    rcases List.pairwise_cons.mp h with ⟨ht, hrest⟩
    by_cases hst : strLe s t = true
    · simp only [insSorted, if_pos hst]
      refine List.pairwise_cons.mpr ⟨?_, h⟩
      intro b hb
      rcases List.mem_cons.mp hb with rfl | hb2
      · exact hst
      · exact strLe_trans s t b hst (ht b hb2)
    · simp only [insSorted, if_neg hst]
      refine List.pairwise_cons.mpr ⟨?_, ih hrest⟩
      intro b hb
      have hmem : b ∈ s :: rest := (insSorted_perm s rest).mem_iff.mp hb
      rcases List.mem_cons.mp hmem with hbs | hb2
      · rw [hbs]
        rcases strLe_total s t with h2 | h2
        · exact absurd h2 hst
        · exact h2
      · exact ht b hb2

theorem sortKeys_pairwise (l : List String) :
    (sortKeys l).Pairwise (fun a b => strLe a b = true) := by
  induction l with
  | nil => simp [sortKeys]
  | cons k rest ih => exact insSorted_pairwise k (sortKeys rest) ih

theorem mem_feAux (l : List String) : ∀ (seen : List String) (a : String),
    a ∈ feAux seen l ↔ a ∈ l ∧ a ∉ seen := by
  induction l with
  | nil =>
    intro seen a
    simp [feAux]
  | cons k rest ih =>
    intro seen a
    by_cases hk : k ∈ seen
    · rw [show feAux seen (k :: rest) = feAux seen rest from by simp [feAux, hk]]
      rw [ih seen a]
      constructor
      · rintro ⟨h1, h2⟩
        exact ⟨List.mem_cons_of_mem _ h1, h2⟩
      · rintro ⟨h1, h2⟩
        rcases List.mem_cons.mp h1 with rfl | h1
        · exact absurd hk h2
        · exact ⟨h1, h2⟩
    · rw [show feAux seen (k :: rest) = k :: feAux (k :: seen) rest from by
        simp [feAux, hk]]
      constructor
      · intro h
        rcases List.mem_cons.mp h with rfl | h
        · exact ⟨List.mem_cons_self _ _, hk⟩
        · rcases (ih (k :: seen) a).mp h with ⟨h1, h2⟩
          refine ⟨List.mem_cons_of_mem _ h1, fun hs => h2 (List.mem_cons_of_mem _ hs)⟩
      · rintro ⟨h1, h2⟩
        rcases List.mem_cons.mp h1 with rfl | h1
        · exact List.mem_cons_self _ _
        · by_cases hak : a = k
          · subst hak
            exact List.mem_cons_self _ _
          · refine List.mem_cons_of_mem _ ((ih (k :: seen) a).mpr ⟨h1, fun hs => ?_⟩)
            rcases List.mem_cons.mp hs with h | h
            · exact hak h
            · exact h2 h

theorem nodup_feAux (l : List String) : ∀ seen : List String, (feAux seen l).Nodup := by
  induction l with
  | nil =>
    intro seen
    simp [feAux]
  | cons k rest ih =>
    intro seen
    by_cases hk : k ∈ seen
    · rw [show feAux seen (k :: rest) = feAux seen rest from by simp [feAux, hk]]
      exact ih seen
    · rw [show feAux seen (k :: rest) = k :: feAux (k :: seen) rest from by
        simp [feAux, hk]]
      refine List.nodup_cons.mpr ⟨?_, ih (k :: seen)⟩
      intro hmem
      exact ((mem_feAux rest (k :: seen) k).mp hmem).2 (List.mem_cons_self _ _)

theorem groupbyJE_keys (rows : List Row) :
    (groupbyJE rows).map Prod.fst = sortKeys (firstEncounterKeys rows) := by
  simp only [groupbyJE, List.map_map, Function.comp]
  exact List.map_id _

/-- C1: the claim states that a row is skipped (appears as no line)
whenever its account number does not resolve, in particular whenever the
Accounts collection is absent from the reference index.  The code
instead skips the row only through the continue of the nonempty-filter
branch; when the Accounts collection is absent the account block is
skipped WITHOUT skipping the row, the unbound journal_entry_line is then
referenced, and build_lines raises NameError instead of assembling an
entry without that line. -/
theorem c1_absent_accounts_raises :
    build_lines c1Frame c1Ref = Except.error PyErr.nameError := rfl

/-- C2: the claim states that at most one of credit and debit is set on
every line of an assembled entry.  On a group where a resolved debit row
is followed by a row with a falsy Account Number cell, the second row
mutates the first row's still-current line object (and appends it
again), so the assembled entry holds one object, listed twice, with BOTH
credit 5 and debit 10 set. -/
theorem c2_exclusivity_fails_on_code :
    (build_lines c2Frame c2Ref).toOption.map
        (fun e => e.lineList.map (fun l => (l.credit, l.debit)))
      = some [(some (pyRound2 5), some (pyRound2 10)),
              (some (pyRound2 5), some (pyRound2 10))] := rfl

/-- C3: the claim states that when no currency record matches the last
row's symbol the entry's currency is unset and assembly still completes.
In the code the branch that finds no match assigns nothing to
currency_ref, so building the journal entry dictionary raises NameError
and assembly fails. -/
theorem c3_unmatched_currency_raises :
    build_lines c3Frame c3Ref = Except.error PyErr.nameError := rfl

/-- C4 (amended): the grouping partitions the rows by Journal Entry Id:
every listed group holds exactly the input rows carrying its key in
their original relative order (a sublist of the input), every input row
lies in the group keyed by its own Journal Entry Id, the keys are
pairwise distinct (so that group is unique), and the groups are emitted
in ASCENDING key order, which is a permutation of, but in general not
equal to, the order in which distinct keys are first encountered. -/
theorem c4_grouping_partition_sorted (rows : List Row) :
    (∀ k g, (k, g) ∈ groupbyJE rows →
        g = rows.filter (fun r => r.journalEntryId == k) ∧ List.Sublist g rows)
    ∧ (∀ r ∈ rows,
        (r.journalEntryId,
          rows.filter (fun r2 => r2.journalEntryId == r.journalEntryId)) ∈ groupbyJE rows
        ∧ r ∈ rows.filter (fun r2 => r2.journalEntryId == r.journalEntryId))
    ∧ ((groupbyJE rows).map Prod.fst).Nodup
    ∧ ((groupbyJE rows).map Prod.fst).Pairwise (fun a b => strLe a b = true)
    ∧ ((groupbyJE rows).map Prod.fst).Perm (firstEncounterKeys rows) := by
  refine ⟨?_, ?_, ?_, ?_, ?_⟩
  · intro k g hmem
    rcases List.mem_map.mp hmem with ⟨k0, hk0, heq⟩
    cases heq
    exact ⟨rfl, List.filter_sublist _⟩
  · intro r hr
    have h1 : r.journalEntryId ∈ firstEncounterKeys rows :=
      (mem_feAux _ [] _).mpr ⟨List.mem_map_of_mem _ hr, by simp⟩
    have h2 : r.journalEntryId ∈ sortKeys (firstEncounterKeys rows) :=
      (sortKeys_perm _).mem_iff.mpr h1
    refine ⟨List.mem_map_of_mem _ h2, ?_⟩
    rw [List.mem_filter]
    exact ⟨hr, by simp⟩
  · rw [groupbyJE_keys]
    exact ((sortKeys_perm _).nodup_iff).mpr (nodup_feAux _ [])
  · rw [groupbyJE_keys]
    exact sortKeys_pairwise _
  · rw [groupbyJE_keys]
    exact sortKeys_perm _

/-- Witness for C4: instantiating the grouping theorem on the two-row
input whose keys arrive as B then A. -/
theorem c4_grouping_partition_sorted_witness :
    [c4RowB] = List.filter (fun r => r.journalEntryId == "B") [c4RowB, c4RowA]
    ∧ List.Sublist [c4RowB] [c4RowB, c4RowA] :=
  (c4_grouping_partition_sorted [c4RowB, c4RowA]).1 "B" [c4RowB] (by decide)

/-- Counterexample for C4 as stated: with keys first encountered in the
order B, A, the groups are emitted in sorted order A, B, not in
first-encounter order. -/
theorem c4_first_encounter_order_fails :
    firstEncounterKeys [c4RowB, c4RowA] = ["B", "A"]
    ∧ (groupbyJE [c4RowB, c4RowA]).map Prod.fst = ["A", "B"]
    ∧ (["A", "B"] : List String) ≠ ["B", "A"] := by
  refine ⟨rfl, by decide, by decide⟩

theorem resolveByToken_singleton (v : String) (d : NamedRecord) :
    (resolveByToken v [d]).isSome = (pySplit " - " d.name).contains v := by
  unfold resolveByToken
  cases hc : (pySplit " - " d.name).contains v
  · have hnot : v ∉ pySplit " - " d.name := by
      intro hm
      have htr : (pySplit " - " d.name).contains v = true := List.elem_iff.mpr hm
      rw [htr] at hc
      cases hc
    simp [List.filter_cons, hc, hnot]
  · have hmem : v ∈ pySplit " - " d.name := List.elem_iff.mp hc
    simp [List.filter_cons, hc, hmem]

/-- C6: REQUIRED_COLS is exactly the fixed required set; when some
required column is absent from the input's column list the run
terminates in the schema exit, before any grouping or assembly is
reached; when every required column is present, validation passes and
the run proceeds to grouping and assembly. -/
theorem c6_required_columns (df : DataFrame) (rd : RefData) :
    REQUIRED_COLS = ["Transaction Date", "Journal Entry Id", "Customer Name", "Class",
                     "Account Number", "Account Name", "Posting Type", "Description"]
    ∧ ((∃ c ∈ REQUIRED_COLS, c ∉ df.cols) →
        load_journal_entries df rd = Except.error LoadError.schemaExit)
    ∧ ((∀ c ∈ REQUIRED_COLS, c ∈ df.cols) →
        load_journal_entries df rd = processGroups df rd) := by
  refine ⟨rfl, ?_, ?_⟩
  · rintro ⟨c, hc, hnot⟩
    have hall : ¬ (REQUIRED_COLS.all (fun c => df.cols.contains c) = true) := by
      intro hall
      exact hnot (List.elem_iff.mp (List.all_eq_true.mp hall c hc))
    unfold load_journal_entries
    rw [if_neg hall]
  · intro hforall
    have hall : REQUIRED_COLS.all (fun c => df.cols.contains c) = true :=
      List.all_eq_true.mpr (fun c hc => List.elem_iff.mpr (hforall c hc))
    unfold load_journal_entries
    rw [if_pos hall]

/-- Witness for C6: a CSV missing only the Description column exits with
the schema error. -/
theorem c6_required_columns_witness :
    load_journal_entries c6BadDf c6Ref = Except.error LoadError.schemaExit :=
  (c6_required_columns c6BadDf c6Ref).2.1 ⟨"Description", by decide, by decide⟩

/-- C7: the token matching of the Class and Department blocks: a record
is resolved by a value exactly when the value is one of the segments of
the record's display name split on " - "; resolution returns a record of
the collection whose segments contain the value; and the record named
"Sales - US" is matched by exactly the values "Sales" and "US". -/
theorem c7_token_matching :
    (∀ (v : String) (recs : List NamedRecord) (d : NamedRecord),
        resolveByToken v recs = some d →
          d ∈ recs ∧ (pySplit " - " d.name).contains v = true)
    ∧ (∀ (v : String) (recs : List NamedRecord),
        (∃ d ∈ recs, (pySplit " - " d.name).contains v = true) ↔
          (resolveByToken v recs).isSome = true)
    ∧ (∀ (v : String) (ex ix : Option String),
        (resolveByToken v
            [{ name := "Sales - US", externalId := ex, internalId := ix }]).isSome = true
          ↔ (v = "Sales" ∨ v = "US")) := by
  refine ⟨?_, ?_, ?_⟩
  · intro v recs d h
    unfold resolveByToken at h
    cases hf : recs.filter (fun d => (pySplit " - " d.name).contains v) with
    | nil =>
      rw [hf] at h
      cases h
    | cons x xs =>
      rw [hf] at h
      have hx : x = d := by simpa using h
      subst hx
      have hmem : x ∈ recs.filter (fun d => (pySplit " - " d.name).contains v) := by
        rw [hf]
        exact List.mem_cons_self _ _
      exact List.mem_filter.mp hmem
  · intro v recs
    constructor
    · rintro ⟨d, hd, hp⟩
      unfold resolveByToken
      cases hf : recs.filter (fun d => (pySplit " - " d.name).contains v) with
      | nil =>
        exfalso
        have hmem : d ∈ recs.filter (fun d => (pySplit " - " d.name).contains v) :=
          List.mem_filter.mpr ⟨hd, hp⟩
        rw [hf] at hmem
        exact absurd hmem (List.not_mem_nil d)
      | cons x xs => rfl
    · intro h
      unfold resolveByToken at h
      cases hf : recs.filter (fun d => (pySplit " - " d.name).contains v) with
      | nil =>
        rw [hf] at h
        cases h
      | cons x xs =>
        have hmem : x ∈ recs.filter (fun d => (pySplit " - " d.name).contains v) := by
          rw [hf]
          exact List.mem_cons_self _ _
        rcases List.mem_filter.mp hmem with ⟨h1, h2⟩
        exact ⟨x, h1, h2⟩
  · intro v ex ix
    rw [resolveByToken_singleton]
    have hsplit : pySplit " - " "Sales - US" = ["Sales", "US"] := by decide
    show (pySplit " - " "Sales - US").contains v = true ↔ (v = "Sales" ∨ v = "US")
    rw [hsplit]
    constructor
    · intro h
      have hm : v ∈ ["Sales", "US"] := List.elem_iff.mp h
      simpa using hm
    · intro h
      refine List.elem_iff.mpr ?_
      simpa using h

/-- Witness for C7: the value US resolves the record named "Sales - US". -/
theorem c7_token_matching_witness :
    (resolveByToken "US"
        [{ name := "Sales - US", externalId := none, internalId := none }]).isSome = true :=
  (c7_token_matching.2.2 "US" none none).mpr (Or.inr rfl)

/-- C10: the fixed required column set does not contain Amount, a CSV
whose columns are exactly the required set passes validation, and
assembling its single group, whose row posts a Credit on a resolving
account, fails with the KeyError of the unconditional row["Amount"]
access instead of producing an entry. -/
theorem c10_amount_not_validated :
    ("Amount" ∉ REQUIRED_COLS)
    ∧ REQUIRED_COLS.all (fun c => c10Df.cols.contains c) = true
    ∧ load_journal_entries c10Df c10Ref
        = Except.error (LoadError.assemblyError PyErr.keyError) := by
  refine ⟨by decide, by decide, rfl⟩

theorem build_lines_ok (x : Frame) (rd : RefData) (e : JournalEntry)
    (hok : build_lines x rd = Except.ok e) :
    ∃ st cb created extId cr,
      runRows x rd = Except.ok st
      ∧ buildCurrency rd x.rows = Except.ok cb
      ∧ createdDateOf x = Except.ok created
      ∧ externalIdOf x = Except.ok extId
      ∧ cb = some cr
      ∧ e = { createdDate := created, tranDate := created, externalId := extId,
              lineList := st.finalized ++ flushPending st.pending,
              currency := cr,
              subsidiary := (collapseSubsidiaries st.subsidiary st.toSubsidiary).1,
              toSubsidiary := (collapseSubsidiaries st.subsidiary st.toSubsidiary).2 } := by
  unfold build_lines at hok
  cases h1 : runRows x rd with
  | error err =>
    rw [h1] at hok
    cases hok
  | ok st =>
    rw [h1] at hok
    cases h2 : buildCurrency rd x.rows with
    | error err =>
      rw [h2] at hok
      cases hok
    | ok cb =>
      rw [h2] at hok
      cases h3 : createdDateOf x with
      | error err =>
        rw [h3] at hok
        cases hok
      | ok created =>
        rw [h3] at hok
        cases h4 : externalIdOf x with
        | error err =>
          rw [h4] at hok
          cases hok
        | ok extId =>
          rw [h4] at hok
          cases h5 : cb with
          | none =>
            rw [h5] at hok
            cases hok
          | some cr =>
            rw [h5] at hok
            injection hok with hok
            exact ⟨st, some cr, created, extId, cr, rfl, rfl, rfl, rfl, rfl, hok.symm⟩

/-- C5 counterexample: on a group whose debit subsidiary is the bare
dictionary around the explicit row value 5 and whose credit subsidiary
is the account default record with the same internal id 5, the two
internal ids are equal yet toSubsidiary is kept, because the code
compares the whole dictionaries, not the internal ids. -/
theorem c5_internal_id_equality_not_sufficient :
    (build_lines c5Frame c5Ref).toOption.map
        (fun e => (e.subsidiary.map (fun s => s.internalId),
                   e.toSubsidiary.map (fun s => s.internalId),
                   e.toSubsidiary.isSome))
      = some (some (some "5"), some (some "5"), true) := rfl

/-- C5 (amended): when both sides of the subsidiaries dictionary ended
up set, toSubsidiary is dropped exactly when the two subsidiary
reference dictionaries are equal as whole records (all fields), not
merely when their internal ids agree; when they differ in any field both
are kept. -/
theorem c5_subsidiary_collapse_whole_record (x : Frame) (rd : RefData)
    (st : LoopState) (e : JournalEntry) (s t : RecordRef)
    (hrun : runRows x rd = Except.ok st)
    (hok : build_lines x rd = Except.ok e)
    (hs : st.subsidiary = some s) (ht : st.toSubsidiary = some t) :
    e.subsidiary = some s
    ∧ e.toSubsidiary = (if s = t then none else some t) := by
  rcases build_lines_ok x rd e hok with ⟨st2, cb, created, extId, cr, h1, h2, h3, h4, h5, he⟩
  have hst : st2 = st := by
    rw [hrun] at h1
    injection h1 with h1
    exact h1.symm
  subst hst
  subst he
  by_cases heq : s = t
  · simp [collapseSubsidiaries, hs, ht, heq]
  · simp [collapseSubsidiaries, hs, ht, heq]

/-- Witness for C5 (amended): the specification scenario where both rows
carry the explicit Subsidiary value 5 produces two equal bare
dictionaries, and toSubsidiary is dropped. -/
theorem c5_subsidiary_collapse_whole_record_witness :
    c5wEntry.subsidiary = some c5wSub
    ∧ c5wEntry.toSubsidiary = (if c5wSub = c5wSub then none else some c5wSub) :=
  c5_subsidiary_collapse_whole_record c5wFrame c5wRef c5wState c5wEntry c5wSub c5wSub
    rfl rfl rfl rfl

/-- C9: in every assembled journal entry createdDate equals tranDate;
when the Transaction Date column is present both equal the parsed
Transaction Date of the group's first row, and when it is absent both
are unset. -/
theorem c9_created_equals_tran (x : Frame) (rd : RefData) (e : JournalEntry)
    (hok : build_lines x rd = Except.ok e) :
    e.createdDate = e.tranDate
    ∧ (x.hasTransactionDate = true →
        e.createdDate = x.rows.head?.map (fun r0 => pd_to_datetime r0.transactionDate))
    ∧ (x.hasTransactionDate = false → e.createdDate = none) := by
  rcases build_lines_ok x rd e hok with ⟨st, cb, created, extId, cr, h1, h2, h3, h4, h5, he⟩
  subst he
  refine ⟨rfl, ?_, ?_⟩
  · intro hT
    unfold createdDateOf at h3
    rw [hT] at h3
    cases h0 : x.rows.head? with
    | none =>
      rw [h0] at h3
      cases h3
    | some r0 =>
      rw [h0] at h3
      injection h3 with h3
      exact h3.symm
  · intro hF
    unfold createdDateOf at h3
    rw [hF] at h3
    injection h3 with h3
    exact h3.symm

/-- Witness for C9: the dates of the entry assembled from the one-row
group with Transaction Date 2020-05-05. -/
theorem c9_created_equals_tran_witness :
    c9Entry.createdDate = c9Entry.tranDate
    ∧ c9Entry.createdDate = some (pd_to_datetime "2020-05-05") := by
  have h := c9_created_equals_tran c9Frame c9Ref c9Entry rfl
  exact ⟨h.1, h.2.1 rfl⟩

theorem mutatePending_ok (st : LoopState) (f : JournalEntryLine → JournalEntryLine)
    (st2 : LoopState) (h : mutatePending st f = Except.ok st2) :
    ∃ l k, st.pending = some (l, k)
      ∧ st2 = { st with pending := some (f l, k) } := by
  unfold mutatePending at h
  cases hp : st.pending with
  | none =>
    rw [hp] at h
    cases h
  | some p =>
    obtain ⟨l, k⟩ := p
    rw [hp] at h
    injection h with h
    exact ⟨l, k, rfl, h.symm⟩

theorem classStep_shape (rd : RefData) (row : Row) (st st2 : LoopState)
    (h : classStep rd row st = Except.ok st2) :
    st2.finalized = st.finalized
    ∧ ∀ l2 k, st2.pending = some (l2, k) →
        ∃ l, st.pending = some (l, k) ∧ l2.memo = l.memo := by
  unfold classStep at h
  split at h
  · split at h
    · injection h with h
      subst h
      exact ⟨rfl, fun l2 k hp => ⟨l2, hp, rfl⟩⟩
    · rcases mutatePending_ok st _ st2 h with ⟨l, k, hp, rfl⟩
      refine ⟨rfl, ?_⟩
      intro l2 k2 hp2
      have hp3 : some ({ l with «class» := some _ }, k) = some (l2, k2) := hp2
      injection hp3 with hpair
      have h1 : _ = l2 := congrArg Prod.fst hpair
      have h2 : k = k2 := congrArg Prod.snd hpair
      subst h1
      subst h2
      exact ⟨l, hp, rfl⟩
  · injection h with h
    subst h
    exact ⟨rfl, fun l2 k hp => ⟨l2, hp, rfl⟩⟩

theorem deptStep_shape (rd : RefData) (row : Row) (st st2 : LoopState)
    (h : deptStep rd row st = Except.ok st2) :
    st2.finalized = st.finalized
    ∧ ∀ l2 k, st2.pending = some (l2, k) →
        ∃ l, st.pending = some (l, k) ∧ l2.memo = l.memo := by
  unfold deptStep at h
  split at h
  · split at h
    · injection h with h
      subst h
      exact ⟨rfl, fun l2 k hp => ⟨l2, hp, rfl⟩⟩
    · rcases mutatePending_ok st _ st2 h with ⟨l, k, hp, rfl⟩
      refine ⟨rfl, ?_⟩
      intro l2 k2 hp2
      have hp3 : some ({ l with department := some _ }, k) = some (l2, k2) := hp2
      injection hp3 with hpair
      have h1 : _ = l2 := congrArg Prod.fst hpair
      have h2 : k = k2 := congrArg Prod.snd hpair
      subst h1
      subst h2
      exact ⟨l, hp, rfl⟩
  · injection h with h
    subst h
    exact ⟨rfl, fun l2 k hp => ⟨l2, hp, rfl⟩⟩

theorem locStep_shape (rd : RefData) (row : Row) (st st2 : LoopState)
    (h : locStep rd row st = Except.ok st2) :
    st2.finalized = st.finalized
    ∧ ∀ l2 k, st2.pending = some (l2, k) →
        ∃ l, st.pending = some (l, k) ∧ l2.memo = l.memo := by
  unfold locStep at h
  split at h
  · split at h
    · injection h with h
      subst h
      exact ⟨rfl, fun l2 k hp => ⟨l2, hp, rfl⟩⟩
    · rcases mutatePending_ok st _ st2 h with ⟨l, k, hp, rfl⟩
      refine ⟨rfl, ?_⟩
      intro l2 k2 hp2
      have hp3 : some ({ l with location := some _ }, k) = some (l2, k2) := hp2
      injection hp3 with hpair
      have h1 : _ = l2 := congrArg Prod.fst hpair
      have h2 : k = k2 := congrArg Prod.snd hpair
      subst h1
      subst h2
      exact ⟨l, hp, rfl⟩
  · injection h with h
    subst h
    exact ⟨rfl, fun l2 k hp => ⟨l2, hp, rfl⟩⟩

theorem amountStep_shape (row : Row) (st st2 : LoopState)
    (h : amountStep row st = Except.ok st2) :
    st2.finalized = st.finalized
    ∧ ∀ l2 k, st2.pending = some (l2, k) →
        ∃ l, st.pending = some (l, k) ∧ l2.memo = l.memo := by
  unfold amountStep at h
  split at h
  · split at h
    · cases h
    · rcases mutatePending_ok st _ st2 h with ⟨l, k, hp, rfl⟩
      refine ⟨rfl, ?_⟩
      intro l2 k2 hp2
      have hp3 : some ({ l with credit := some _ }, k) = some (l2, k2) := hp2
      injection hp3 with hpair
      have h1 : _ = l2 := congrArg Prod.fst hpair
      have h2 : k = k2 := congrArg Prod.snd hpair
      subst h1
      subst h2
      exact ⟨l, hp, rfl⟩
  · split at h
    · split at h
      · cases h
      · rcases mutatePending_ok st _ st2 h with ⟨l, k, hp, rfl⟩
        refine ⟨rfl, ?_⟩
        intro l2 k2 hp2
        have hp3 : some ({ l with debit := some _ }, k) = some (l2, k2) := hp2
        injection hp3 with hpair
        have h1 : _ = l2 := congrArg Prod.fst hpair
        have h2 : k = k2 := congrArg Prod.snd hpair
        subst h1
        subst h2
        exact ⟨l, hp, rfl⟩
    · injection h with h
      subst h
      exact ⟨rfl, fun l2 k hp => ⟨l2, hp, rfl⟩⟩

theorem accountStep_shape (rd : RefData) (st : LoopState) (row : Row)
    (st1 : LoopState) (h : accountStep rd st row = some st1) :
    (st1.finalized = st.finalized ∧ st1.pending = st.pending)
    ∨ (st1.finalized = st.finalized ++ flushPending st.pending
       ∧ ∃ r, st1.pending = some (freshLine r, 0)) := by
  unfold accountStep at h
  split at h
  · split at h
    · cases h
    · split at h
      · injection h with h
        subst h
        exact Or.inr ⟨rfl, ⟨_, rfl⟩⟩
      · split at h
        · injection h with h
          subst h
          exact Or.inr ⟨rfl, ⟨_, rfl⟩⟩
        · split at h
          · injection h with h
            subst h
            exact Or.inr ⟨rfl, ⟨_, rfl⟩⟩
          · injection h with h
            subst h
            exact Or.inr ⟨rfl, ⟨_, rfl⟩⟩
  · injection h with h
    subst h
    exact Or.inl ⟨rfl, rfl⟩

theorem memoStep_ok (x : Frame) (st st2 : LoopState) (r0 : Row)
    (hd : x.hasDescription = true) (h0 : x.rows.head? = some r0)
    (h : memoStep x st = Except.ok st2) :
    ∃ l k, st.pending = some (l, k)
      ∧ st2 = { st with pending := some ({ l with memo := some r0.description }, k) } := by
  unfold memoStep at h
  rw [hd, h0] at h
  exact mutatePending_ok st _ st2 h

theorem appendStep_ok (st st2 : LoopState) (h : appendStep st = Except.ok st2) :
    ∃ l k, st.pending = some (l, k)
      ∧ st2 = { st with pending := some (l, k + 1) } := by
  unfold appendStep at h
  cases hp : st.pending with
  | none =>
    rw [hp] at h
    cases h
  | some p =>
    obtain ⟨l, k⟩ := p
    rw [hp] at h
    injection h with h
    exact ⟨l, k, rfl, h.symm⟩

theorem flushPending_memo (d : String) (p : Option (JournalEntryLine × Nat))
    (hp : ∀ l k, p = some (l, k) → 0 < k → l.memo = some d) :
    ∀ l ∈ flushPending p, l.memo = some d := by
  cases p with
  | none =>
    intro l hl
    simp [flushPending] at hl
  | some q =>
    obtain ⟨l0, k⟩ := q
    intro l hl
    simp only [flushPending] at hl
    rcases List.mem_replicate.mp hl with ⟨hk, rfl⟩
    exact hp l k rfl (Nat.pos_of_ne_zero hk)

theorem foldlM_except_inv {σ α ε : Type} (P : σ → Prop) (f : σ → α → Except ε σ) :
    ∀ (l : List α) (init : σ), P init →
    (∀ s a s2, P s → f s a = Except.ok s2 → P s2) →
    ∀ s, l.foldlM f init = Except.ok s → P s := by
  intro l
  induction l with
  | nil =>
    intro init hinit _ s h
    rw [List.foldlM_nil] at h
    injection h with h
    exact h ▸ hinit
  | cons a t ih =>
    intro init hinit hstep s h
    rw [List.foldlM_cons] at h
    cases hfa : f init a with
    | error err =>
      rw [hfa] at h
      exact Except.noConfusion h
    | ok s1 =>
      rw [hfa] at h
      exact ih s1 (hstep init a s1 hinit hfa) hstep s h

theorem memoInv_of_shape (d : String) (s s2 : LoopState)
    (hfin : s2.finalized = s.finalized)
    (hpend : ∀ l2 k, s2.pending = some (l2, k) →
        ∃ l, s.pending = some (l, k) ∧ l2.memo = l.memo)
    (h : memoInv d s) : memoInv d s2 := by
  refine ⟨?_, ?_⟩
  · rw [hfin]
    exact h.1
  · intro l2 k hp hk
    rcases hpend l2 k hp with ⟨l, hl, hm⟩
    rw [hm]
    exact h.2 l k hl hk

theorem processRow_memoInv (x : Frame) (rd : RefData) (row : Row) (r0 : Row)
    (hd : x.hasDescription = true) (h0 : x.rows.head? = some r0)
    (st st2 : LoopState) (hinv : memoInv r0.description st)
    (h : processRow x rd st row = Except.ok st2) :
    memoInv r0.description st2 := by
  unfold processRow at h
  split at h
  · injection h with h
    subst h
    exact hinv
  · rename_i st1 ha
    have hQ1 : memoInv r0.description st1 := by
      rcases accountStep_shape rd st row st1 ha with ⟨hf, hp⟩ | ⟨hf, r, hp⟩
      · refine ⟨?_, ?_⟩
        · rw [hf]
          exact hinv.1
        · intro l k hpk hk
          rw [hp] at hpk
          exact hinv.2 l k hpk hk
      · refine ⟨?_, ?_⟩
        · rw [hf]
          intro l hl
          rcases List.mem_append.mp hl with hl2 | hl2
          · exact hinv.1 l hl2
          · exact flushPending_memo r0.description st.pending hinv.2 l hl2
        · intro l k hpk hk
          rw [hp] at hpk
          injection hpk with hpk
          have hk0 : (0 : Nat) = k := congrArg Prod.snd hpk
          omega
    split at h
    · cases h
    · rename_i stc hc
      have hQc : memoInv r0.description stc :=
        memoInv_of_shape _ _ _ (classStep_shape rd row st1 stc hc).1
          (classStep_shape rd row st1 stc hc).2 hQ1
      split at h
      · cases h
      · rename_i std hdp
        have hQd : memoInv r0.description std :=
          memoInv_of_shape _ _ _ (deptStep_shape rd row stc std hdp).1
            (deptStep_shape rd row stc std hdp).2 hQc
        split at h
        · cases h
        · rename_i stl hl
          have hQl : memoInv r0.description stl :=
            memoInv_of_shape _ _ _ (locStep_shape rd row std stl hl).1
              (locStep_shape rd row std stl hl).2 hQd
          split at h
          · cases h
          · rename_i sta ham
            have hQa : memoInv r0.description sta :=
              memoInv_of_shape _ _ _ (amountStep_shape row stl sta ham).1
                (amountStep_shape row stl sta ham).2 hQl
            split at h
            · cases h
            · rename_i stm hm
              rcases memoStep_ok x sta stm r0 hd h0 hm with ⟨l, k, hpa, rfl⟩
              rcases appendStep_ok _ st2 h with ⟨l2, k2, hp2, rfl⟩
              have hp3 : some ({ l with memo := some r0.description }, k)
                  = some (l2, k2) := hp2
              injection hp3 with hpair
              have hl2 : { l with memo := some r0.description } = l2 :=
                congrArg Prod.fst hpair
              refine ⟨?_, ?_⟩
              · exact hQa.1
              · intro l3 k3 hpk hk
                have hp4 : some (l2, k2 + 1) = some (l3, k3) := hpk
                injection hp4 with hpair2
                have hl3 : l2 = l3 := congrArg Prod.fst hpair2
                rw [← hl3, ← hl2]

/-- C8: every line of an assembled journal entry carries the same memo,
the Description of the FIRST row of the group, no matter which row
produced the line. -/
theorem c8_memo_from_first_row (x : Frame) (rd : RefData) (e : JournalEntry) (r0 : Row)
    (hd : x.hasDescription = true) (h0 : x.rows.head? = some r0)
    (hok : build_lines x rd = Except.ok e) :
    ∀ l ∈ e.lineList, l.memo = some r0.description := by
  rcases build_lines_ok x rd e hok with ⟨st, cb, created, extId, cr, h1, h2, h3, h4, h5, he⟩
  have hinv : memoInv r0.description st := by
    refine foldlM_except_inv (memoInv r0.description) (processRow x rd) x.rows initState
      ⟨?_, ?_⟩ ?_ st h1
    · intro l hl
      exact absurd hl (List.not_mem_nil l)
    · intro l k hp _
      exact Option.noConfusion hp
    · intro s a s2 hs hstep2
      exact processRow_memoInv x rd a r0 hd h0 s s2 hs hstep2
  subst he
  intro l hl
  have hl2 : l ∈ st.finalized ++ flushPending st.pending := hl
  rcases List.mem_append.mp hl2 with hm | hm
  · exact hinv.1 l hm
  · exact flushPending_memo r0.description st.pending hinv.2 l hm

/-- Witness for C8: the line produced by the second row of c8Frame,
whose own Description is the string second, carries the first row's
Description as memo. -/
theorem c8_memo_from_first_row_witness : c8Line2.memo = some "first" := by
  have h := c8_memo_from_first_row c8Frame c8Ref c8Entry c8Row1 rfl rfl rfl
  exact h c8Line2 (List.mem_cons_of_mem _ (List.mem_cons_self _ _))

end TargetNetsuite
